import Mathlib

/-!
Verification of the asset-pipeline scripts of `arcade-cabinet/infinite-headaches`.

The scripts run inside a 3D content-creation host; the portable logic is the
bounding-box framing math plus per-asset batch control flow.  We embed:

* `src/scripts/render-animal-portraits.py` — `center_and_scale_model`,
  `render_portrait`, `main` (the `ANIMALS` batch);
* `src/scripts/render-farmer-portraits.py` — `get_model_bounds`,
  `render_farmer` (portrait framing and X-centering);
* `src/scripts/bpy/export_farmer_models.py` — `process_character`
  (scene-element check, per-clip animation import, export);
* `src/scripts/bpy/export_farmers_from_blend.py` — `process_character`
  (abandoned variant) and the file's empty module body.

Numbers: the scripts compute with Python floats.  We model finite values as
exact rationals (rounding is ignored; every claim is an exact equation), and
keep IEEE-style positive/negative infinity — the sentinels
`float("inf")`/`float("-inf")` used by the bounds accumulators — plus a `nan`
element so every arithmetic operation is total.  Python raises
`ZeroDivisionError` on float division by zero; the scripts guard every
division, and the unreachable case is modelled as `nan`.

Host-API effects (scene graph, file writes, prints) are modelled as explicit
data: environments say which files exist and what an import yields, and
outcomes carry the written file names and the logged events.
-/

/-- Python float values as used by the scripts: exact rationals plus the IEEE
infinities and nan. -/
inductive Flt where
  | nan : Flt
  | ninf : Flt
  | pinf : Flt
  | fin : ℚ → Flt
deriving DecidableEq

/-- IEEE-style strict comparison: any comparison against nan is false. -/
def Flt.flt : Flt → Flt → Bool
  | .nan, _ => false
  | _, .nan => false
  | .ninf, .ninf => false
  | .ninf, _ => true
  | .pinf, _ => false
  | .fin _, .ninf => false
  | .fin _, .pinf => true
  | .fin a, .fin b => decide (a < b)

/-- IEEE-style non-strict comparison: any comparison against nan is false. -/
def Flt.fle : Flt → Flt → Bool
  | .nan, _ => false
  | _, .nan => false
  | .ninf, _ => true
  | _, .pinf => true
  | .pinf, _ => false
  | .fin _, .ninf => false
  | .fin a, .fin b => decide (a ≤ b)

/-- Python's two-argument `min`: returns the second argument only when it is
strictly smaller (so `min(x, nan) = x` and `min(nan, x) = nan`). -/
def Flt.fmin (a b : Flt) : Flt := if Flt.flt b a then b else a

/-- Python's two-argument `max`: returns the second argument only when it is
strictly larger. -/
def Flt.fmax (a b : Flt) : Flt := if Flt.flt a b then b else a

/-- IEEE negation. -/
def Flt.neg : Flt → Flt
  | .nan => .nan
  | .ninf => .pinf
  | .pinf => .ninf
  | .fin a => .fin (-a)

/-- IEEE addition: opposite infinities give nan. -/
def Flt.add : Flt → Flt → Flt
  | .nan, _ => .nan
  | _, .nan => .nan
  | .pinf, .ninf => .nan
  | .ninf, .pinf => .nan
  | .pinf, _ => .pinf
  | _, .pinf => .pinf
  | .ninf, _ => .ninf
  | _, .ninf => .ninf
  | .fin a, .fin b => .fin (a + b)

/-- IEEE subtraction, `a - b = a + (-b)`. -/
def Flt.sub (a b : Flt) : Flt := Flt.add a (Flt.neg b)

/-- IEEE multiplication: infinity times zero gives nan. -/
def Flt.mul : Flt → Flt → Flt
  | .nan, _ => .nan
  | _, .nan => .nan
  | .pinf, .pinf => .pinf
  | .pinf, .ninf => .ninf
  | .ninf, .pinf => .ninf
  | .ninf, .ninf => .pinf
  | .pinf, .fin b => if b = 0 then .nan else if 0 < b then .pinf else .ninf
  | .fin a, .pinf => if a = 0 then .nan else if 0 < a then .pinf else .ninf
  | .ninf, .fin b => if b = 0 then .nan else if 0 < b then .ninf else .pinf
  | .fin a, .ninf => if a = 0 then .nan else if 0 < a then .ninf else .pinf
  | .fin a, .fin b => .fin (a * b)

/-- Division.  Python raises `ZeroDivisionError` on a zero divisor; every
division in the scripts is guarded, so that case is modelled as nan. -/
def Flt.div : Flt → Flt → Flt
  | .nan, _ => .nan
  | _, .nan => .nan
  | .pinf, .pinf => .nan
  | .pinf, .ninf => .nan
  | .ninf, .pinf => .nan
  | .ninf, .ninf => .nan
  | .pinf, .fin b => if b = 0 then .nan else if 0 < b then .pinf else .ninf
  | .ninf, .fin b => if b = 0 then .nan else if 0 < b then .ninf else .pinf
  | .fin _, .pinf => .fin 0
  | .fin _, .ninf => .fin 0
  | .fin a, .fin b => if b = 0 then .nan else .fin (a / b)

/-- A world-space 3D point with float coordinates (axis 0 = x, 1 = y, 2 = z). -/
abbrev Point := Fin 3 → Flt

/-- A point with finite (rational) coordinates. -/
def finPt (p : Fin 3 → ℚ) : Point := fun i => Flt.fin (p i)

/-- The sentinel accumulator pair `min_co = [inf]*3`, `max_co = [-inf]*3`
that both bounds loops start from. -/
def boundsInit : Point × Point := (fun _ => Flt.pinf, fun _ => Flt.ninf)

/-- One vertex of the bounds scan: per axis,
`min_co[i] = min(min_co[i], v[i])` and `max_co[i] = max(max_co[i], v[i])`. -/
def bounds_step (acc : Point × Point) (v : Point) : Point × Point :=
  (fun i => Flt.fmin (acc.1 i) (v i), fun i => Flt.fmax (acc.2 i) (v i))

/-- The spec's `compute_bounds` contract: the inner accumulation loop shared
by `get_model_bounds` (render-farmer-portraits.py:178-198) and
`center_and_scale_model` (render-animal-portraits.py:152-160), as a function
of the scanned point sequence. -/
def compute_bounds (ps : List Point) : Point × Point :=
  ps.foldl bounds_step boundsInit

/-- A scene object of the farmer renderer: its transform channels and the
world-space geometry its evaluated mesh (or, as fallback, its bounding-box
corners) contributes to the bounds scan.  `vertices` are the evaluated,
already-posed world coordinates `eval_obj.matrix_world @ vert.co`. -/
structure FObj where
  location : Point
  rotation : Point
  scale : Point
  isMeshWithData : Bool
  vertices : List Point
  boundBox : List Point

/-- The points an object contributes to the farmer bounds scan: its evaluated
mesh vertices when it is a mesh with data, else its bounding-box corners
(render-farmer-portraits.py:186-198). -/
def FObj.points (o : FObj) : List Point :=
  if o.isMeshWithData then o.vertices else o.boundBox

/-- Embeds `get_model_bounds` (render-farmer-portraits.py:176-200): scan every
object's contributed points starting from the sentinel pair. -/
def get_model_bounds (objs : List FObj) : Point × Point :=
  objs.foldl (fun acc o => (FObj.points o).foldl bounds_step acc) boundsInit

/-- The spec's `compute_center_and_scale` contract, embedding
render-animal-portraits.py:162-168 with the constant `target_size = 1.8`
generalised to a parameter:
`center[i] = (min[i]+max[i])/2`, `size = max(max[i]-min[i] for i)` (a Python
generator `max`, i.e. a left fold), `scale = target/size if size > 0 else 1`. -/
def compute_center_and_scale (mn mx : Point) (target : Flt) : Point × Flt :=
  let center : Point := fun i => Flt.div (Flt.add (mn i) (mx i)) (Flt.fin 2)
  let size := Flt.fmax (Flt.fmax (Flt.sub (mx 0) (mn 0)) (Flt.sub (mx 1) (mn 1)))
      (Flt.sub (mx 2) (mn 2))
  let scale := if Flt.flt (Flt.fin 0) size then Flt.div target size else Flt.fin 1
  (center, scale)

/-- The animal renderer's fixed `target_size = 1.8`
(render-animal-portraits.py:167). -/
def target_size : Flt := Flt.fin (9 / 5)

/-- A scene object of the animal renderer: world-space bounding-box corners
(`obj.matrix_world @ mathutils.Vector(vertex)` already applied) and the
transform channels the routine mutates. -/
structure AObj where
  corners : List Point
  location : Point
  scale : Point

/-- Embeds `center_and_scale_model` (render-animal-portraits.py:146-178).
Empty object list: return with no mutation.  Otherwise accumulate the corner
bounds from the sentinel pair, derive center and scale, and apply
`location -= center` per axis and `scale *= scale_factor` to every object. -/
def center_and_scale_model (objs : List AObj) : List AObj :=
  match objs with
  | [] => []
  | _ :: _ =>
    let b := objs.foldl (fun acc o => o.corners.foldl bounds_step acc) boundsInit
    let cs := compute_center_and_scale b.1 b.2 target_size
    objs.map (fun o =>
      { o with
        location := fun i => Flt.sub (o.location i) (cs.1 i)
        scale := fun i => Flt.mul (o.scale i) cs.2 })

/-- The largest per-axis span of a rational bounds pair, associated the way
the Python generator `max` folds it. -/
def extentQ (mn mx : Fin 3 → ℚ) : ℚ :=
  max (max (mx 0 - mn 0) (mx 1 - mn 1)) (mx 2 - mn 2)

theorem flt_fin_fin (a b : ℚ) : Flt.flt (.fin a) (.fin b) = decide (a < b) := rfl

theorem fle_fin_fin (a b : ℚ) : Flt.fle (.fin a) (.fin b) = decide (a ≤ b) := rfl

theorem fmin_fin_fin (a b : ℚ) : Flt.fmin (.fin a) (.fin b) = .fin (min a b) := by
  simp only [Flt.fmin, flt_fin_fin, decide_eq_true_eq]
  rcases le_or_lt a b with h | h
  · rw [if_neg (not_lt.mpr h), min_eq_left h]
  · rw [if_pos h, min_eq_right h.le]

theorem fmax_fin_fin (a b : ℚ) : Flt.fmax (.fin a) (.fin b) = .fin (max a b) := by
  simp only [Flt.fmax, flt_fin_fin, decide_eq_true_eq]
  rcases le_or_lt b a with h | h
  · rw [if_neg (not_lt.mpr h), max_eq_left h]
  · rw [if_pos h, max_eq_right h.le]

theorem fmin_pinf_fin (a : ℚ) : Flt.fmin .pinf (.fin a) = .fin a := rfl

theorem fmax_ninf_fin (a : ℚ) : Flt.fmax .ninf (.fin a) = .fin a := rfl

theorem add_fin_fin (a b : ℚ) : Flt.add (.fin a) (.fin b) = .fin (a + b) := rfl

theorem sub_fin_fin (a b : ℚ) : Flt.sub (.fin a) (.fin b) = .fin (a - b) := by
  simp only [Flt.sub, Flt.neg, add_fin_fin, sub_eq_add_neg]

theorem mul_fin_fin (a b : ℚ) : Flt.mul (.fin a) (.fin b) = .fin (a * b) := rfl

theorem div_fin_fin (a b : ℚ) (hb : b ≠ 0) :
    Flt.div (.fin a) (.fin b) = .fin (a / b) := by
  simp only [Flt.div, if_neg hb]

/-- The largest per-axis span, the `size` variable of
render-animal-portraits.py:164: a Python generator `max` over the three spans,
i.e. a left fold. -/
def largest_span (mn mx : Point) : Flt :=
  Flt.fmax (Flt.fmax (Flt.sub (mx 0) (mn 0)) (Flt.sub (mx 1) (mn 1)))
    (Flt.sub (mx 2) (mn 2))

theorem largest_span_fin (mn mx : Fin 3 → ℚ) :
    largest_span (finPt mn) (finPt mx) = .fin (extentQ mn mx) := by
  simp only [largest_span, finPt, sub_fin_fin, fmax_fin_fin, extentQ]

theorem compute_center_and_scale_fst (mn mx : Point) (target : Flt) (i : Fin 3) :
    (compute_center_and_scale mn mx target).1 i
      = Flt.div (Flt.add (mn i) (mx i)) (Flt.fin 2) := rfl

theorem compute_center_and_scale_snd (mn mx : Point) (target : Flt) :
    (compute_center_and_scale mn mx target).2
      = if Flt.flt (Flt.fin 0) (largest_span mn mx) then
          Flt.div target (largest_span mn mx)
        else Flt.fin 1 := rfl

/-! ### Farmer portrait framing (render-farmer-portraits.py:276-295) -/

/-- The X-centering applied after framing: `(min_co[0] + max_co[0]) / 2`
(render-farmer-portraits.py:280). -/
def centerXOf (meshes : List FObj) : Flt :=
  let b := get_model_bounds meshes
  Flt.div (Flt.add (b.1 0) (b.2 0)) (Flt.fin 2)

/-- The mutation `obj.location.x -= center_x`
(render-farmer-portraits.py:292-295): only the x component of `location`
changes; every other channel is kept. -/
def shiftX (cx : Flt) (o : FObj) : FObj :=
  { o with location := fun i => if i = 0 then Flt.sub (o.location i) cx else o.location i }

/-- The scene state produced by the framing block of `render_farmer`:
the (possibly shifted) armature and meshes, the camera focus height passed to
`setup_camera` as `center_z`, and the computed X center. -/
structure FrameResult where
  armature : Option FObj
  meshes : List FObj
  camZ : Flt
  centerX : Flt

/-- Embeds render-farmer-portraits.py:276-295: compute the posed model's
bounds, `height = max_co[2] - min_co[2]`,
`portrait_center_z = min_co[2] + height * 0.75` (the camera's `center_z`),
then shift the armature's x location by `center_x` — or every mesh's when no
armature was imported. -/
def render_farmer_frame (armature : Option FObj) (meshes : List FObj) : FrameResult :=
  let b := get_model_bounds meshes
  let height := Flt.sub (b.2 2) (b.1 2)
  let portrait_center_z := Flt.add (b.1 2) (Flt.mul height (Flt.fin (3 / 4)))
  let center_x := centerXOf meshes
  match armature with
  | some a =>
    { armature := some (shiftX center_x a), meshes := meshes
      camZ := portrait_center_z, centerX := center_x }
  | none =>
    { armature := none, meshes := meshes.map (shiftX center_x)
      camZ := portrait_center_z, centerX := center_x }

/-! ### Logged events and batch environments -/

/-- The log lines the claims are about, abstracted from the scripts' prints. -/
inductive LogEvent where
  | missingFile : String → LogEvent
  | noMeshes : String → LogEvent
  | missingSceneElements : String → LogEvent
  | clipError : String → LogEvent
  | rendered : String → LogEvent
deriving DecidableEq

/-- The host-side facts `render_portrait` (render-animal-portraits.py) depends
on: whether a model file exists, and the mesh objects its import yields. -/
structure AnimalEnv where
  fileExists : String → Bool
  importedMeshes : String → List AObj

/-- The outcome of one `render_portrait` call: its return value, the image
files written, the key log lines, and the scene it rendered. -/
structure PortraitOutcome where
  success : Bool
  outputs : List String
  logs : List LogEvent
  scene : List AObj

/-- Embeds `render_portrait` (render-animal-portraits.py:181-219): missing
file → log and return False; no meshes imported → log and return False; else
center-and-scale the meshes, render to the output file, return True. -/
def render_portrait (env : AnimalEnv) (model_name output_filename : String) :
    PortraitOutcome :=
  if env.fileExists model_name = false then
    { success := false, outputs := [], logs := [.missingFile model_name], scene := [] }
  else
    let objs := env.importedMeshes model_name
    if objs.isEmpty then
      { success := false, outputs := [], logs := [.noMeshes model_name], scene := [] }
    else
      { success := true, outputs := [output_filename]
        logs := [.rendered output_filename], scene := center_and_scale_model objs }

/-- The `ANIMALS` name map (render-animal-portraits.py:25-31), in its
insertion order. -/
def ANIMALS : List (String × String) :=
  [("cow", "cow_portrait.png"), ("pig", "pig_portrait.png"),
   ("chicken", "chicken_portrait.png"), ("duck", "duck_portrait.png"),
   ("sheep", "sheep_portrait.png")]

/-- The end-of-run state of the animal batch: the per-asset results list, the
`successful` count of the summary, and every output file written. -/
structure BatchOutcome where
  results : List (String × Bool)
  successful : ℕ
  outputs : List String

/-- Embeds `main` (render-animal-portraits.py:222-250): run `render_portrait`
per `ANIMALS` entry, collect `(name, success)` pairs, and count
`sum(1 for _, s in results if s)`. -/
def animal_main (env : AnimalEnv) : BatchOutcome :=
  let results := ANIMALS.map (fun p => (p.1, (render_portrait env p.1 p.2).success))
  { results := results
    successful := (results.filter (fun r => r.2)).length
    outputs := (ANIMALS.map (fun p => (render_portrait env p.1 p.2).outputs)).flatten }

/-! ### Farmer portrait batch (render-farmer-portraits.py:246-304) -/

/-- One `FARMERS` entry: the GLB path and the output file name. -/
structure FarmerConfig where
  glb : String
  output : String

/-- The host-side facts `render_farmer` depends on: whether the GLB exists and
the armature/meshes its import yields (with `vertices` already the posed,
evaluated world coordinates — `pose_idle` and the depsgraph update are host
operations folded into the environment). -/
structure FarmEnv where
  fileExists : String → Bool
  loadArmature : String → Option FObj
  loadMeshes : String → List FObj

/-- The outcome of one `render_farmer` call. -/
structure FarmOutcome where
  success : Bool
  outputs : List String
  logs : List LogEvent
  frame : Option FrameResult

/-- Embeds `render_farmer` (render-farmer-portraits.py:246-304): missing GLB →
log and return False; no meshes imported → log and return False; else frame
(bounds, camera focus, X shift), render the output, return True. -/
def render_farmer (env : FarmEnv) (cfg : FarmerConfig) : FarmOutcome :=
  if env.fileExists cfg.glb = false then
    { success := false, outputs := [], logs := [.missingFile cfg.glb], frame := none }
  else
    let armature := env.loadArmature cfg.glb
    let meshes := env.loadMeshes cfg.glb
    if meshes.isEmpty then
      { success := false, outputs := [], logs := [.noMeshes cfg.glb], frame := none }
    else
      { success := true, outputs := [cfg.output], logs := [.rendered cfg.output]
        frame := some (render_farmer_frame armature meshes) }

/-! ### FBX character export (export_farmer_models.py:58-133) -/

/-- One `CHARACTERS` entry of export_farmer_models.py. -/
structure CharConfig where
  fbx : String
  mesh_name : String
  animations : List (String × String)

/-- The host-side facts `process_character` depends on: what the character
FBX import yields (an armature? a mesh whose name contains `mesh_name`?), and
the result of each animation FBX import — `Except.error` models an exception
raised anywhere inside the per-clip `try` block, and `Except.ok b` a finished
clip import where `b` says whether the imported armature carries an action. -/
structure CharEnv where
  importFbx : String → String → Bool × Bool
  importAnim : String → Except Unit Bool

/-- The outcome of one `process_character` call: whether the export was
reached, the NLA track names created (one per clip whose import yielded an
action), the files written, and the key log lines. -/
structure ExportOutcome where
  exported : Bool
  tracks : List String
  outputs : List String
  logs : List LogEvent

/-- One iteration of the animation-import loop
(export_farmer_models.py:92-105): a raised exception is caught and logged; a
completed import with an action appends an NLA track named after the clip;
one without an action adds nothing. -/
def clipStep (env : CharEnv) (acc : List String × List LogEvent)
    (p : String × String) : List String × List LogEvent :=
  match env.importAnim p.2 with
  | .error _ => (acc.1, acc.2 ++ [LogEvent.clipError p.1])
  | .ok true => (acc.1 ++ [p.1], acc.2)
  | .ok false => acc

/-- A clip whose import completes and yields an action. -/
def clipOk (env : CharEnv) (p : String × String) : Bool :=
  match env.importAnim p.2 with
  | .ok true => true
  | _ => false

/-- Embeds `process_character` (export_farmer_models.py:58-128): import the
character FBX; with no armature or no matching mesh, log the error and return
before any export; otherwise run the per-clip animation loop and export the
GLB including the accumulated NLA tracks. -/
def process_character (env : CharEnv) (char_key : String) (cfg : CharConfig) :
    ExportOutcome :=
  let found := env.importFbx cfg.fbx cfg.mesh_name
  if found.1 = false ∨ found.2 = false then
    { exported := false, tracks := [], outputs := []
      logs := [.missingSceneElements char_key] }
  else
    let r := cfg.animations.foldl (clipStep env) ([], [])
    { exported := true, tracks := r.1, outputs := [char_key ++ ".glb"], logs := r.2 }

/-! ### Abandoned .blend export script (export_farmers_from_blend.py) -/

/-- One `CHARACTERS` entry of export_farmers_from_blend.py. -/
structure BlendConfig where
  blend : String
  obj_name : String
  animations : List (String × String)

/-- The host-side facts the .blend variant depends on: whether the named mesh
and any armature are found in the opened file, and the per-clip import
results. -/
structure BlendEnv where
  findMesh : String → Bool
  findArmature : Bool
  importAnim : String → Except Unit Unit

/-- The outcome of one `process_character` call of
export_farmers_from_blend.py. -/
structure BlendOutcome where
  outputs : List String
  logs : List LogEvent

/-- Embeds `process_character` (export_farmers_from_blend.py:32-106): open the
.blend, bail out if the named mesh or an armature is missing, then loop over
the clips — the `try` body imports the clip and ends in `pass`, so a
completed import contributes nothing and only a raised exception is logged.
No branch writes any output: the function contains no export call. -/
def blend_process_character (env : BlendEnv) (char_key : String)
    (cfg : BlendConfig) : BlendOutcome :=
  if env.findMesh cfg.obj_name = false ∨ env.findArmature = false then
    { outputs := [], logs := [.missingSceneElements char_key] }
  else
    { outputs := []
      logs := cfg.animations.foldl
        (fun ls p =>
          match env.importAnim p.2 with
          | .error _ => ls ++ [LogEvent.clipError p.1]
          | .ok _ => ls) [] }

/-- The module body of export_farmers_from_blend.py: after the
`process_character` definition the file holds only comments (lines 105-110) —
no top-level statement invokes it, so a batch run of the script performs no
per-character processing at all. -/
def blend_main : List BlendOutcome := []

/-! ### Helper lemmas -/

theorem compute_bounds_single (p : Fin 3 → ℚ) :
    compute_bounds [finPt p] = (finPt p, finPt p) := by
  unfold compute_bounds boundsInit
  simp only [List.foldl_cons, List.foldl_nil, bounds_step]
  refine Prod.ext ?_ ?_ <;> funext i <;> simp [finPt, Flt.fmin, Flt.fmax, Flt.flt]

theorem compute_bounds_pair_fst (a b : Fin 3 → ℚ) (i : Fin 3) :
    (compute_bounds [finPt a, finPt b]).1 i = .fin (min (a i) (b i)) := by
  show Flt.fmin (Flt.fmin Flt.pinf (finPt a i)) (finPt b i) = _
  simp only [finPt, fmin_pinf_fin, fmin_fin_fin]

theorem compute_bounds_pair_snd (a b : Fin 3 → ℚ) (i : Fin 3) :
    (compute_bounds [finPt a, finPt b]).2 i = .fin (max (a i) (b i)) := by
  show Flt.fmax (Flt.fmax Flt.ninf (finPt a i)) (finPt b i) = _
  simp only [finPt, fmax_ninf_fin, fmax_fin_fin]

/-- The invariant of claim C6: on each axis both accumulators are finite and
ordered. -/
def goodState (s : Point × Point) : Prop :=
  ∀ i, ∃ a b : ℚ, s.1 i = .fin a ∧ s.2 i = .fin b ∧ a ≤ b

theorem bounds_step_init_good (p : Fin 3 → ℚ) :
    goodState (bounds_step boundsInit (finPt p)) := by
  intro i
  exact ⟨p i, p i, rfl, rfl, le_refl _⟩

theorem bounds_step_good (s : Point × Point) (hs : goodState s) (p : Fin 3 → ℚ) :
    goodState (bounds_step s (finPt p)) := by
  intro i
  obtain ⟨a, b, h1, h2, hab⟩ := hs i
  refine ⟨min a (p i), max b (p i), ?_, ?_, ?_⟩
  · show Flt.fmin (s.1 i) (finPt p i) = _
    rw [h1]
    simp only [finPt, fmin_fin_fin]
  · show Flt.fmax (s.2 i) (finPt p i) = _
    rw [h2]
    simp only [finPt, fmax_fin_fin]
  · exact le_trans (le_trans (min_le_left _ _) hab) (le_max_left _ _)

theorem foldl_bounds_good (ps : List (Fin 3 → ℚ)) (s : Point × Point)
    (hs : goodState s) : goodState ((ps.map finPt).foldl bounds_step s) := by
  induction ps generalizing s with
  | nil => exact hs
  | cons p rest ih =>
    simp only [List.map_cons, List.foldl_cons]
    exact ih _ (bounds_step_good s hs p)

theorem render_portrait_absent (env : AnimalEnv) (m o : String)
    (hf : env.fileExists m = false) :
    render_portrait env m o
      = { success := false, outputs := [], logs := [.missingFile m], scene := [] } := by
  simp [render_portrait, hf]

theorem render_portrait_present (env : AnimalEnv) (m o : String)
    (hf : env.fileExists m = true)
    (hm : (env.importedMeshes m).isEmpty = false) :
    render_portrait env m o
      = { success := true, outputs := [o], logs := [.rendered o]
          scene := center_and_scale_model (env.importedMeshes m) } := by
  simp [render_portrait, hf, hm]

theorem render_portrait_success_eq (env : AnimalEnv) (m o : String)
    (hm : env.fileExists m = true → (env.importedMeshes m).isEmpty = false) :
    (render_portrait env m o).success = env.fileExists m := by
  cases hf : env.fileExists m with
  | false => rw [render_portrait_absent env m o hf]
  | true => rw [render_portrait_present env m o hf (hm hf)]

theorem batch_counts (env : AnimalEnv) (l : List (String × String))
    (h : ∀ p ∈ l, env.fileExists p.1 = true → (env.importedMeshes p.1).isEmpty = false) :
    ((l.map (fun p => (p.1, (render_portrait env p.1 p.2).success))).filter
        (fun r => r.2)).length
      = (l.filter (fun p => env.fileExists p.1)).length ∧
    ((l.map (fun p => (p.1, (render_portrait env p.1 p.2).success))).filter
        (fun r => !r.2)).length
      = (l.filter (fun p => !env.fileExists p.1)).length ∧
    (l.map (fun p => (render_portrait env p.1 p.2).outputs)).flatten
      = (l.filter (fun p => env.fileExists p.1)).map (fun p => p.2) := by
  induction l with
  | nil => exact ⟨rfl, rfl, rfl⟩
  | cons p rest ih =>
    obtain ⟨ih1, ih2, ih3⟩ := ih (fun q hq => h q (List.mem_cons_of_mem _ hq))
    have hp := h p (List.mem_cons_self _ _)
    have hs : (render_portrait env p.1 p.2).success = env.fileExists p.1 :=
      render_portrait_success_eq env p.1 p.2 hp
    cases hf : env.fileExists p.1 with
    | false =>
      have ho := render_portrait_absent env p.1 p.2 hf
      refine ⟨?_, ?_, ?_⟩ <;>
        simp [List.filter_cons, hs, hf, ho, ih1, ih2, ih3]
    | true =>
      have ho := render_portrait_present env p.1 p.2 hf (hp hf)
      refine ⟨?_, ?_, ?_⟩ <;>
        simp [List.filter_cons, hs, hf, ho, ih1, ih2, ih3]

/-- A clip whose import raises an exception (caught and logged per-clip). -/
def clipErr (env : CharEnv) (p : String × String) : Bool :=
  match env.importAnim p.2 with
  | .error _ => true
  | .ok _ => false

theorem clip_foldl (env : CharEnv) (anims : List (String × String))
    (ts : List String) (ls : List LogEvent) :
    anims.foldl (clipStep env) (ts, ls)
      = (ts ++ (anims.filter (clipOk env)).map (fun p => p.1),
         ls ++ (anims.filter (clipErr env)).map (fun p => LogEvent.clipError p.1)) := by
  induction anims generalizing ts ls with
  | nil => simp
  | cons p rest ih =>
    simp only [List.foldl_cons, List.filter_cons]
    cases hi : env.importAnim p.2 with
    | error e =>
      rw [show clipStep env (ts, ls) p = (ts, ls ++ [LogEvent.clipError p.1]) by
        simp [clipStep, hi]]
      rw [ih]
      simp [clipOk, clipErr, hi]
    | ok hasAct =>
      cases hasAct with
      | false =>
        rw [show clipStep env (ts, ls) p = (ts, ls) by simp [clipStep, hi]]
        rw [ih]
        simp [clipOk, clipErr, hi]
      | true =>
        rw [show clipStep env (ts, ls) p = (ts ++ [p.1], ls) by simp [clipStep, hi]]
        rw [ih]
        simp [clipOk, clipErr, hi]

/-! ### Claims -/

/-- Claim C1: for every bounds pair and target size,
`compute_center_and_scale` returns `center[i] = (min[i]+max[i])/2` per axis,
the extent is the largest per-axis span (an upper bound on, and attained by,
the three spans), `scale = target/extent` when the extent is positive and
`scale = 1` when it is zero — and for a degenerate (single-point) bounds pair
the center is that point; the scale is always a finite value, never NaN or
infinite, with no division by zero. -/
theorem C1_center_and_scale_math (mn mx : Fin 3 → ℚ) (t : ℚ) :
    (∀ i, (compute_center_and_scale (finPt mn) (finPt mx) (.fin t)).1 i
        = .fin ((mn i + mx i) / 2)) ∧
    (∀ i, mx i - mn i ≤ extentQ mn mx) ∧
    (extentQ mn mx = mx 0 - mn 0 ∨ extentQ mn mx = mx 1 - mn 1 ∨
      extentQ mn mx = mx 2 - mn 2) ∧
    (0 < extentQ mn mx →
      (compute_center_and_scale (finPt mn) (finPt mx) (.fin t)).2
        = .fin (t / extentQ mn mx)) ∧
    (extentQ mn mx = 0 →
      (compute_center_and_scale (finPt mn) (finPt mx) (.fin t)).2 = .fin 1) ∧
    (∃ q : ℚ, (compute_center_and_scale (finPt mn) (finPt mx) (.fin t)).2 = .fin q) ∧
    (extentQ mn mx = 0 → (∀ i, mn i ≤ mx i) →
      ∀ i, (compute_center_and_scale (finPt mn) (finPt mx) (.fin t)).1 i
        = .fin (mn i)) := by
  have hcen : ∀ i, (compute_center_and_scale (finPt mn) (finPt mx) (.fin t)).1 i
      = .fin ((mn i + mx i) / 2) := by
    intro i
    rw [compute_center_and_scale_fst]
    simp only [finPt, add_fin_fin]
    rw [div_fin_fin _ _ (by norm_num)]
  have hsc : (compute_center_and_scale (finPt mn) (finPt mx) (.fin t)).2
      = if 0 < extentQ mn mx then .fin (t / extentQ mn mx) else .fin 1 := by
    rw [compute_center_and_scale_snd, largest_span_fin, flt_fin_fin]
    rcases lt_or_le 0 (extentQ mn mx) with h | h
    · rw [if_pos (decide_eq_true h), if_pos h, div_fin_fin _ _ (ne_of_gt h)]
    · rw [if_neg (by simpa using not_lt.mpr h), if_neg (not_lt.mpr h)]
  refine ⟨hcen, ?_, ?_, ?_, ?_, ?_, ?_⟩
  · intro i
    fin_cases i
    · exact le_trans (le_max_left _ _) (le_max_left _ _)
    · exact le_trans (le_max_right _ _) (le_max_left _ _)
    · exact le_max_right _ _
  · rcases max_cases (max (mx 0 - mn 0) (mx 1 - mn 1)) (mx 2 - mn 2) with ⟨h1, _⟩ | ⟨h1, _⟩
    · rcases max_cases (mx 0 - mn 0) (mx 1 - mn 1) with ⟨h2, _⟩ | ⟨h2, _⟩
      · exact Or.inl (by rw [extentQ, h1, h2])
      · exact Or.inr (Or.inl (by rw [extentQ, h1, h2]))
    · exact Or.inr (Or.inr (by rw [extentQ, h1]))
  · intro h
    rw [hsc, if_pos h]
  · intro h
    rw [hsc, h, if_neg (lt_irrefl 0)]
  · rw [hsc]
    rcases lt_or_le 0 (extentQ mn mx) with h | h
    · exact ⟨t / extentQ mn mx, if_pos h⟩
    · exact ⟨1, if_neg (not_lt.mpr h)⟩
  · intro h0 hle i
    have hspan : mx i - mn i ≤ 0 := by
      have : mx i - mn i ≤ extentQ mn mx := by
        fin_cases i
        · exact le_trans (le_max_left _ _) (le_max_left _ _)
        · exact le_trans (le_max_right _ _) (le_max_left _ _)
        · exact le_max_right _ _
      rwa [h0] at this
    have heq : mx i = mn i := le_antisymm (by linarith) (hle i)
    rw [hcen i, heq]
    exact congrArg Flt.fin (by ring)

/-- Witness for C1 at the degenerate single-point bounds `(2,2,2)-(2,2,2)`
with target 5: the scale is 1 and the center is the point itself. -/
theorem C1_center_and_scale_math_witness :
    (compute_center_and_scale (finPt (fun _ => 2)) (finPt (fun _ => 2)) (.fin 5)).2
        = .fin 1 ∧
    (compute_center_and_scale (finPt (fun _ => 2)) (finPt (fun _ => 2)) (.fin 5)).1 0
        = .fin 2 := by
  have h := C1_center_and_scale_math (fun _ => 2) (fun _ => 2) 5
  have h0 : extentQ (fun _ => 2) (fun _ => 2) = 0 := by
    simp [extentQ]
  exact ⟨h.2.2.2.2.1 h0, h.2.2.2.2.2.2 h0 (fun _ => le_refl 2) 0⟩

/-- Claim C2: on the empty input sequence the bounds scan returns the
sentinel pair (+∞ in every min coordinate, −∞ in every max coordinate), and
the animal centering/scaling routine returns immediately on an empty object
list, mutating nothing. -/
theorem C2_empty_input_sentinel :
    compute_bounds [] = (fun _ => Flt.pinf, fun _ => Flt.ninf) ∧
    get_model_bounds [] = (fun _ => Flt.pinf, fun _ => Flt.ninf) ∧
    center_and_scale_model [] = [] :=
  ⟨rfl, rfl, rfl⟩

/-- Claim C5: the bounds scan on a single point `p` returns `(p, p)`; the
per-object scan of `get_model_bounds` agrees with the point-sequence scan;
and on two points `a, b` the result satisfies `min[i] ≤ max[i]` on every
axis, with `min[i]` and `max[i]` each one of `a[i]`, `b[i]`. -/
theorem C5_bounds_single_and_pair (p a b : Fin 3 → ℚ) (o : FObj) :
    compute_bounds [finPt p] = (finPt p, finPt p) ∧
    get_model_bounds [o] = compute_bounds (FObj.points o) ∧
    (∀ i, Flt.fle ((compute_bounds [finPt a, finPt b]).1 i)
        ((compute_bounds [finPt a, finPt b]).2 i) = true) ∧
    (∀ i, (compute_bounds [finPt a, finPt b]).1 i = .fin (a i) ∨
          (compute_bounds [finPt a, finPt b]).1 i = .fin (b i)) ∧
    (∀ i, (compute_bounds [finPt a, finPt b]).2 i = .fin (a i) ∨
          (compute_bounds [finPt a, finPt b]).2 i = .fin (b i)) := by
  refine ⟨compute_bounds_single p, rfl, ?_, ?_, ?_⟩
  · intro i
    rw [compute_bounds_pair_fst, compute_bounds_pair_snd, fle_fin_fin]
    exact decide_eq_true min_le_max
  · intro i
    rw [compute_bounds_pair_fst]
    rcases min_choice (a i) (b i) with h | h
    · exact Or.inl (congrArg Flt.fin h)
    · exact Or.inr (congrArg Flt.fin h)
  · intro i
    rw [compute_bounds_pair_snd]
    rcases max_choice (a i) (b i) with h | h
    · exact Or.inl (congrArg Flt.fin h)
    · exact Or.inr (congrArg Flt.fin h)

/-- Claim C6: after each vertex of the scan — i.e. for every nonempty prefix
of the vertex list, whatever the remaining vertices are — the accumulated
bounds satisfy `min[i] ≤ max[i]` on every axis; with no vertex observed the
pair is the sentinel infinities. -/
theorem C6_scan_invariant (ps : List (Fin 3 → ℚ)) (n : ℕ)
    (h1 : 1 ≤ n) (h2 : n ≤ ps.length) :
    compute_bounds [] = boundsInit ∧
    ∀ i, Flt.fle ((compute_bounds ((ps.take n).map finPt)).1 i)
        ((compute_bounds ((ps.take n).map finPt)).2 i) = true := by
  refine ⟨rfl, ?_⟩
  have hne : ps.take n ≠ [] := by
    intro h
    have hlen : (ps.take n).length = min n ps.length := List.length_take n ps
    rw [h] at hlen
    simp only [List.length_nil] at hlen
    rcases Nat.min_eq_zero_iff.mp hlen.symm with h0 | h0 <;> omega
  obtain ⟨p, rest, hpr⟩ := List.exists_cons_of_ne_nil hne
  rw [hpr]
  have hg : goodState (compute_bounds ((p :: rest).map finPt)) := by
    unfold compute_bounds
    simp only [List.map_cons, List.foldl_cons]
    exact foldl_bounds_good rest _ (bounds_step_init_good p)
  intro i
  obtain ⟨x, y, hx, hy, hxy⟩ := hg i
  rw [hx, hy, fle_fin_fin]
  exact decide_eq_true hxy

/-- Witness for C6: a one-vertex scan at `(1,1,1)` satisfies the invariant
after its first (and only) step. -/
theorem C6_scan_invariant_witness :
    compute_bounds [] = boundsInit ∧
    ∀ i, Flt.fle ((compute_bounds (([fun _ => (1 : ℚ)].take 1).map finPt)).1 i)
        ((compute_bounds (([fun _ => (1 : ℚ)].take 1).map finPt)).2 i) = true :=
  C6_scan_invariant [fun _ => 1] 1 (le_refl 1) (by simp)

/-- Claim C3: when some source files are absent (and every present file
imports at least one mesh), the batch logs each missing file, skips that
asset, processes all the rest, writes output only for present assets, and
the summary counts exactly one success per present asset and one failure per
absent asset. -/
theorem C3_batch_skips_missing (env : AnimalEnv)
    (h : ∀ p ∈ ANIMALS, env.fileExists p.1 = true →
        (env.importedMeshes p.1).isEmpty = false) :
    (∀ p ∈ ANIMALS, (render_portrait env p.1 p.2).success = env.fileExists p.1) ∧
    (∀ p ∈ ANIMALS, env.fileExists p.1 = false →
      (render_portrait env p.1 p.2).outputs = [] ∧
      (render_portrait env p.1 p.2).logs = [LogEvent.missingFile p.1]) ∧
    (animal_main env).results.length = ANIMALS.length ∧
    (animal_main env).successful = (ANIMALS.filter (fun p => env.fileExists p.1)).length ∧
    ((animal_main env).results.filter (fun r => !r.2)).length
      = (ANIMALS.filter (fun p => !env.fileExists p.1)).length ∧
    (animal_main env).outputs = (ANIMALS.filter (fun p => env.fileExists p.1)).map
      (fun p => p.2) := by
  obtain ⟨hc1, hc2, hc3⟩ := batch_counts env ANIMALS h
  refine ⟨?_, ?_, ?_, hc1, hc2, hc3⟩
  · intro p hp
    exact render_portrait_success_eq env p.1 p.2 (h p hp)
  · intro p _ hf
    rw [render_portrait_absent env p.1 p.2 hf]
    exact ⟨rfl, rfl⟩
  · exact List.length_map _ _

/-- An imported mesh object used by concrete batch scenarios. -/
def egAObj : AObj :=
  { corners := [finPt (fun _ => 0)], location := finPt (fun _ => 0)
    scale := finPt (fun _ => 1) }

/-- A concrete batch environment: every model file except `sheep` exists, and
every import yields one mesh. -/
def egAnimalEnv : AnimalEnv :=
  { fileExists := fun s => !(s == "sheep"), importedMeshes := fun _ => [egAObj] }

/-- Witness for C3: five assets with the `sheep` source absent yield exactly
4 successes and 1 failure, and outputs for exactly the 4 present assets. -/
theorem C3_batch_skips_missing_witness :
    (animal_main egAnimalEnv).successful = 4 ∧
    ((animal_main egAnimalEnv).results.filter (fun r => !r.2)).length = 1 ∧
    (animal_main egAnimalEnv).outputs
      = ["cow_portrait.png", "pig_portrait.png", "chicken_portrait.png",
         "duck_portrait.png"] := by
  have h := C3_batch_skips_missing egAnimalEnv (fun p _ _ => rfl)
  refine ⟨h.2.2.2.1.trans ?_, h.2.2.2.2.1.trans ?_, h.2.2.2.2.2.trans ?_⟩ <;> rfl

/-- Claim C4: with the character's FBX import finding its armature and mesh,
an exception in any single clip import is caught there — the loop finishes,
the export still runs (writing the character's GLB) and includes exactly the
clips whose import succeeded with an action, and each failing clip is logged,
not propagated. -/
theorem C4_per_clip_isolation (env : CharEnv) (key : String) (cfg : CharConfig)
    (h : env.importFbx cfg.fbx cfg.mesh_name = (true, true)) :
    (process_character env key cfg).exported = true ∧
    (process_character env key cfg).tracks
      = (cfg.animations.filter (clipOk env)).map (fun p => p.1) ∧
    (process_character env key cfg).outputs = [key ++ ".glb"] ∧
    (process_character env key cfg).logs
      = (cfg.animations.filter (clipErr env)).map (fun p => LogEvent.clipError p.1) := by
  unfold process_character
  rw [h]
  rw [if_neg (by simp)]
  rw [clip_foldl]
  simp

/-- An export environment whose character import succeeds and where only the
clip file `bad.fbx` raises on import. -/
def egCharEnv : CharEnv :=
  { importFbx := fun _ _ => (true, true)
    importAnim := fun p => if p == "bad.fbx" then .error () else .ok true }

/-- A character with two clips, one of which has an invalid path. -/
def egCharConfig : CharConfig :=
  { fbx := "farmer.fbx", mesh_name := "Farmer"
    animations := [("idle", "idle.fbx"), ("walk", "bad.fbx")] }

/-- Witness for C4: with 2 clips of which one import raises, the export still
happens and includes the one valid clip, and the failure is logged. -/
theorem C4_per_clip_isolation_witness :
    (process_character egCharEnv "john" egCharConfig).exported = true ∧
    (process_character egCharEnv "john" egCharConfig).tracks = ["idle"] ∧
    (process_character egCharEnv "john" egCharConfig).outputs = ["john.glb"] ∧
    (process_character egCharEnv "john" egCharConfig).logs
      = [LogEvent.clipError "walk"] := by
  have h := C4_per_clip_isolation egCharEnv "john" egCharConfig rfl
  exact ⟨h.1, h.2.1.trans (by rfl), h.2.2.1.trans (by rfl), h.2.2.2.trans (by rfl)⟩

theorem shiftX_scale (cx : Flt) (o : FObj) : (shiftX cx o).scale = o.scale := rfl

theorem shiftX_rotation (cx : Flt) (o : FObj) :
    (shiftX cx o).rotation = o.rotation := rfl

/-- Claim C7: the portrait camera focus height is the lower bound plus 0.75
times the bounding height — a fractional anchor, not the geometric center —
while the subject keeps its scale (and rotation) in both framing branches. -/
theorem C7_portrait_anchor (arm : Option FObj) (meshes : List FObj)
    (mn mx : Fin 3 → ℚ)
    (hb : get_model_bounds meshes = (finPt mn, finPt mx)) :
    (render_farmer_frame arm meshes).camZ = .fin (mn 2 + 3 / 4 * (mx 2 - mn 2)) ∧
    (render_farmer_frame arm meshes).meshes.map FObj.scale = meshes.map FObj.scale ∧
    (render_farmer_frame arm meshes).armature.map FObj.scale = arm.map FObj.scale ∧
    (render_farmer_frame arm meshes).meshes.map FObj.rotation
      = meshes.map FObj.rotation := by
  have hz : (render_farmer_frame arm meshes).camZ
      = Flt.add ((get_model_bounds meshes).1 2)
          (Flt.mul (Flt.sub ((get_model_bounds meshes).2 2)
            ((get_model_bounds meshes).1 2)) (Flt.fin (3 / 4))) := by
    cases arm <;> rfl
  have hcam : (render_farmer_frame arm meshes).camZ
      = .fin (mn 2 + 3 / 4 * (mx 2 - mn 2)) := by
    rw [hz, hb]
    show Flt.add (finPt mn 2) (Flt.mul (Flt.sub (finPt mx 2) (finPt mn 2))
      (Flt.fin (3 / 4))) = _
    simp only [finPt, sub_fin_fin, mul_fin_fin, add_fin_fin]
    exact congrArg Flt.fin (by ring)
  have hcomps : FObj.scale ∘ shiftX (centerXOf meshes) = FObj.scale :=
    funext fun x => rfl
  have hcompr : FObj.rotation ∘ shiftX (centerXOf meshes) = FObj.rotation :=
    funext fun x => rfl
  cases arm with
  | none =>
    refine ⟨hcam, ?_, rfl, ?_⟩
    · show (meshes.map (shiftX (centerXOf meshes))).map FObj.scale = _
      rw [List.map_map, hcomps]
    · show (meshes.map (shiftX (centerXOf meshes))).map FObj.rotation = _
      rw [List.map_map, hcompr]
  | some a =>
    exact ⟨hcam, rfl, rfl, rfl⟩

/-- A posed farmer mesh whose single evaluated vertex sits at the origin. -/
def wMesh : FObj :=
  { location := finPt (fun _ => 0), rotation := finPt (fun _ => 0)
    scale := finPt (fun _ => 1), isMeshWithData := true
    vertices := [finPt (fun _ => 0)], boundBox := [] }

/-- Witness for C7: a single-vertex model at the origin gives camera focus
height 0 and unchanged mesh scales. -/
theorem C7_portrait_anchor_witness :
    (render_farmer_frame none [wMesh]).camZ = .fin 0 ∧
    (render_farmer_frame none [wMesh]).meshes.map FObj.scale
      = [wMesh].map FObj.scale := by
  have hb : get_model_bounds [wMesh] = (finPt (fun _ => 0), finPt (fun _ => 0)) := by
    show compute_bounds [finPt (fun _ => 0)] = _
    exact compute_bounds_single _
  have h := C7_portrait_anchor none [wMesh] (fun _ => 0) (fun _ => 0) hb
  refine ⟨?_, h.2.1⟩
  rw [h.1]
  norm_num

/-- Claim C8: an asset whose import yields no armature or no mesh matching
the expected name (export script), or no meshes at all (farmer renderer), is
logged and skipped with no partial output — the export/render call is never
reached. -/
theorem C8_missing_scene_elements (cenv : CharEnv) (key : String)
    (cfg : CharConfig) (fenv : FarmEnv) (fcfg : FarmerConfig)
    (hmiss : (cenv.importFbx cfg.fbx cfg.mesh_name).1 = false ∨
             (cenv.importFbx cfg.fbx cfg.mesh_name).2 = false)
    (hfile : fenv.fileExists fcfg.glb = true)
    (hnomesh : (fenv.loadMeshes fcfg.glb).isEmpty = true) :
    (process_character cenv key cfg).exported = false ∧
    (process_character cenv key cfg).outputs = [] ∧
    (process_character cenv key cfg).tracks = [] ∧
    (process_character cenv key cfg).logs = [LogEvent.missingSceneElements key] ∧
    (render_farmer fenv fcfg).success = false ∧
    (render_farmer fenv fcfg).outputs = [] ∧
    (render_farmer fenv fcfg).logs = [LogEvent.noMeshes fcfg.glb] := by
  have hp : process_character cenv key cfg
      = { exported := false, tracks := [], outputs := []
          logs := [.missingSceneElements key] } := by
    unfold process_character
    rw [if_pos hmiss]
  have hr : render_farmer fenv fcfg
      = { success := false, outputs := [], logs := [.noMeshes fcfg.glb]
          frame := none } := by
    unfold render_farmer
    rw [if_neg (by simp [hfile]), if_pos hnomesh]
  rw [hp, hr]
  exact ⟨rfl, rfl, rfl, rfl, rfl, rfl, rfl⟩

/-- An export environment whose FBX import finds no armature. -/
def egBadCharEnv : CharEnv :=
  { importFbx := fun _ _ => (false, true), importAnim := fun _ => .ok true }

/-- A farmer environment whose GLB exists but imports no meshes. -/
def egBadFarmEnv : FarmEnv :=
  { fileExists := fun _ => true, loadArmature := fun _ => none
    loadMeshes := fun _ => [] }

/-- A concrete farmer entry. -/
def egFarmerConfig : FarmerConfig :=
  { glb := "john.glb", output := "farmer_john_portrait.png" }

/-- Witness for C8: a missing armature skips the export with only the error
logged, and a meshless GLB skips the render with no output. -/
theorem C8_missing_scene_elements_witness :
    (process_character egBadCharEnv "john" egCharConfig).exported = false ∧
    (process_character egBadCharEnv "john" egCharConfig).outputs = [] ∧
    (process_character egBadCharEnv "john" egCharConfig).tracks = [] ∧
    (process_character egBadCharEnv "john" egCharConfig).logs
      = [LogEvent.missingSceneElements "john"] ∧
    (render_farmer egBadFarmEnv egFarmerConfig).success = false ∧
    (render_farmer egBadFarmEnv egFarmerConfig).outputs = [] ∧
    (render_farmer egBadFarmEnv egFarmerConfig).logs
      = [LogEvent.noMeshes "john.glb"] :=
  C8_missing_scene_elements egBadCharEnv "john" egCharConfig egBadFarmEnv
    egFarmerConfig (Or.inl rfl) rfl rfl

/-- Claim C9: export_farmers_from_blend.py processes zero characters at
module level (its `process_character` is defined but never invoked), and even
when invoked the function writes no output on any path — its per-clip loop
body imports and then discards, and no export call exists in the file. -/
theorem C9_blend_script_inert (env : BlendEnv) (key : String) (cfg : BlendConfig) :
    blend_main = [] ∧
    (blend_process_character env key cfg).outputs = [] := by
  refine ⟨rfl, ?_⟩
  unfold blend_process_character
  split <;> rfl

/-- Claim C10: centering a farmer model under the camera changes only the x
component of the armature's location (or of each mesh's location when no
armature was imported); y and z locations, rotations and scales are
unchanged, and the subject is never rescaled. -/
theorem C10_only_x_shifted (o arm : FObj) (cx : Flt) (meshes : List FObj) :
    (shiftX cx o).location 0 = Flt.sub (o.location 0) cx ∧
    (shiftX cx o).location 1 = o.location 1 ∧
    (shiftX cx o).location 2 = o.location 2 ∧
    (shiftX cx o).rotation = o.rotation ∧
    (shiftX cx o).scale = o.scale ∧
    (render_farmer_frame (some arm) meshes).armature
      = some (shiftX (centerXOf meshes) arm) ∧
    (render_farmer_frame (some arm) meshes).meshes = meshes ∧
    (render_farmer_frame none meshes).armature = none ∧
    (render_farmer_frame none meshes).meshes
      = meshes.map (shiftX (centerXOf meshes)) :=
  ⟨rfl, rfl, rfl, rfl, rfl, rfl, rfl, rfl, rfl⟩
